import Mathlib

/-!
Verification of the round scheduler of SprayingToolkit (src/atomizer.py)
against its natural-language specification.

The embedding models Atomizer.atomize (lines 67-100) as a function that
produces a trace of observable events: pacing sleeps, updates of the
password on the shared sprayer, submissions of authentication attempts to
the worker pool, and the per-round barrier. Wall-clock time is an oracle
clock : Nat -> Rat indexed by the number of time.time() calls made so far,
so elapsed-time computations are explicit and the model stays executable.
-/

namespace Atomizer

/-- The characters removed by the Python method str.strip at either end of a
line (the ASCII whitespace characters; credentials in this development are
ASCII, so the further Unicode whitespace cases are not modelled). -/
def isPySpace (c : Char) : Bool :=
  c == ' ' || c == '\t' || c == '\n' || c == '\r' || c == '\x0b' || c == '\x0c'

/-- Python str.strip: remove the maximal run of whitespace characters from the
front of the string and then from the back (used at lines 89 and 94 of
src/atomizer.py on every password line and every username line). -/
def pyStrip (s : String) : String :=
  String.mk (((s.toList.dropWhile isPySpace).reverse.dropWhile isPySpace).reverse)

/-- Observable events of one run of Atomizer.atomize.
submit records one call of loop.run_in_executor (line 94): the username
passed to the attempt operation, whether the federated variant auth_O365 was
selected (sprayer.O365 flag), and the password currently set on the sprayer.
barrier records the await asyncio.wait over the tasks of the round (line 97),
carrying how many tasks it waited for. -/
inductive Event where
  | sleep (delay : ℚ)
  | setPassword (password : String)
  | submit (username : String) (federated : Bool) (password : String)
  | barrier (count : Nat)
  deriving DecidableEq

/-- The mutable loop state of Atomizer.atomize: the round counter attempt
(line 71), the pacing anchor start_ts (line 72 / line 86), and the number of
time.time() calls made so far (index into the clock oracle). -/
structure LoopState where
  attempt : Int
  start_ts : ℚ
  k : Nat
  deriving DecidableEq

/-- Initial loop state: attempt = 0, start_ts = 0 (lines 71-72), no clock
calls made yet. -/
def initState : LoopState := ⟨0, 0, 0⟩

/-- The executor submissions of one round (lines 92-94): one task per line of
the username stream, in stream order, username stripped, variant chosen by
the O365 flag, all carrying the password currently set on the sprayer. -/
def roundSubmits (O365 : Bool) (users : List String) (pw : String) : List Event :=
  users.map (fun email => Event.submit (pyStrip email) O365 pw)

/-- One iteration of the outer loop of Atomizer.atomize (lines 75-94), up to
but not including the barrier: the pacing decision (lines 75-84), the
re-anchoring start_ts = time.time() (line 86), setting the stripped password
on the sprayer (line 89) and the fan-out of executor tasks (lines 91-94).
In the pacing branch the clock is sampled at index s.k (line 76) and then at
s.k + 1 (line 86); otherwise only at s.k (line 86). -/
def roundStep (O365 : Bool) (users : List String) (max_tries : Int) (interval : ℚ)
    (clock : Nat → ℚ) (password : String) (s : LoopState) : List Event × LoopState :=
  if max_tries > 0 ∧ s.attempt ≥ max_tries then
    let elapsed := clock s.k - s.start_ts
    let delay : ℚ := if interval > elapsed then interval - elapsed else 0
    let pw := pyStrip password
    (Event.sleep delay :: Event.setPassword pw :: roundSubmits O365 users pw,
     ⟨1, clock (s.k + 1), s.k + 2⟩)
  else
    let pw := pyStrip password
    (Event.setPassword pw :: roundSubmits O365 users pw,
     ⟨s.attempt + 1, clock s.k, s.k + 1⟩)

/-- Result of a run: either the loop drained the password stream, or it was
aborted by an uncaught exception, with the trace produced up to that point. -/
inductive RunResult where
  | ok (trace : List Event)
  | aborted (trace : List Event) (message : String)
  deriving DecidableEq

/-- The error raised by await asyncio.wait(blocking_tasks) at line 97 when
blocking_tasks is empty (Python asyncio.wait raises ValueError on an empty
collection of futures). -/
def awaitEmptyError : String := "ValueError: Set of coroutines/Futures is empty."

/-- The outer loop of Atomizer.atomize over the password stream (lines
74-98): each password line yields one roundStep followed by the barrier
await asyncio.wait(blocking_tasks); with an empty username stream the
barrier raises ValueError and the run aborts inside the first round. -/
def atomizeGo (O365 : Bool) (users : List String) (max_tries : Int) (interval : ℚ)
    (clock : Nat → ℚ) : List String → LoopState → RunResult
  | [], _ => RunResult.ok []
  | password :: rest, s =>
    let step := roundStep O365 users max_tries interval clock password s
    if users.isEmpty then
      RunResult.aborted step.1 awaitEmptyError
    else
      match atomizeGo O365 users max_tries interval clock rest step.2 with
      | RunResult.ok tr => RunResult.ok (step.1 ++ Event.barrier users.length :: tr)
      | RunResult.aborted tr m =>
          RunResult.aborted (step.1 ++ Event.barrier users.length :: tr) m

/-- Atomizer.atomize (lines 67-100): run the outer loop from the initial
state attempt = 0, start_ts = 0. -/
def atomize (O365 : Bool) (users passwords : List String) (max_tries : Int)
    (interval : ℚ) (clock : Nat → ℚ) : RunResult :=
  atomizeGo O365 users max_tries interval clock passwords initState

/-- The event trace of a run, whether it completed or aborted. -/
def traceOf : RunResult → List Event
  | RunResult.ok tr => tr
  | RunResult.aborted tr _ => tr

/-- Recognizer for submit events (attempt calls). -/
def isSubmitEv : Event → Bool
  | Event.submit _ _ _ => true
  | _ => false

/-- Recognizer for sleep events (pacing pauses). -/
def isSleepEv : Event → Bool
  | Event.sleep _ => true
  | _ => false

/-- Recognizer for setPassword events (one per started round). -/
def isSetPasswordEv : Event → Bool
  | Event.setPassword _ => true
  | _ => false

/-- Number of attempt calls issued during a run. -/
def countSubmits (r : RunResult) : Nat := (traceOf r).countP isSubmitEv

/-- Number of pacing pauses during a run. -/
def countSleeps (r : RunResult) : Nat := (traceOf r).countP isSleepEv

/-- A submit event respects the variant selection of line 94:
sprayer.auth_O365 when the O365 flag is set, sprayer.auth otherwise.
Non-submit events satisfy this vacuously. -/
def usesFlagVariant (O365 : Bool) : Event → Bool
  | Event.submit _ federated _ => federated == O365
  | _ => true

/-- The loop-state evolution of Atomizer.atomize: threading roundStep through
a list of password lines. The state after any prefix of the run is obtained
by applying runState to that prefix. -/
def runState (O365 : Bool) (users : List String) (max_tries : Int) (interval : ℚ)
    (clock : Nat → ℚ) : List String → LoopState → LoopState
  | [], s => s
  | password :: rest, s =>
      runState O365 users max_tries interval clock rest
        (roundStep O365 users max_tries interval clock password s).2

/-- Signal-delivery model for SIGINT/SIGTERM (lines 134-135 of
src/atomizer.py). signalAfterRound gives the number of completed rounds
after which the signal handler Atomizer.shutdown runs. The handler (lines
102-103) only invokes sprayer.shutdown(); it writes no state that the
atomize loop (lines 74-98) reads, and the loop performs no shutdown check,
so the scheduled rounds are those of atomizeGo regardless of the signal. -/
def atomizeWithSignal (O365 : Bool) (users passwords : List String) (max_tries : Int)
    (interval : ℚ) (clock : Nat → ℚ) (signalAfterRound : Option Nat) : RunResult :=
  atomizeGo O365 users max_tries interval clock passwords initState

/-- The file-system facts the entry point consults for its two input paths
(lines 123-132), plus the line contents used once a path is opened. -/
structure FileSystem where
  pathExists : String → Bool
  pathIsFile : String → Bool
  lines : String → List String

/-- The spray path of the entry point (lines 123-145): validate the password
file path, then the username file path, exiting with status 1 and a printed
error on the first failure; only then run the scheduler. The error value
carries the printed message and the exit status. -/
def mainSpray (fs : FileSystem) (passfile userfile : String) (O365 : Bool)
    (max_tries : Int) (interval : ℚ) (clock : Nat → ℚ) :
    Except (String × Nat) RunResult :=
  if !fs.pathExists passfile || !fs.pathIsFile passfile then
    Except.error ("Path to --passfile invalid!", 1)
  else if !fs.pathExists userfile || !fs.pathIsFile userfile then
    Except.error ("Path to --userfile invalid!", 1)
  else
    Except.ok (atomize O365 (fs.lines userfile) (fs.lines passfile) max_tries interval clock)

/-- Attempt calls made by the entry point: none when it exits on a
configuration error, the submits of the run otherwise. -/
def attemptsOf : Except (String × Nat) RunResult → Nat
  | Except.error _ => 0
  | Except.ok r => countSubmits r

/-! ### Helper lemmas -/

theorem roundStep_pause (O365 : Bool) (users : List String) (max_tries : Int)
    (interval : ℚ) (clock : Nat → ℚ) (password : String) (s : LoopState)
    (h1 : max_tries > 0) (h2 : s.attempt ≥ max_tries) :
    roundStep O365 users max_tries interval clock password s =
      (Event.sleep (max 0 (interval - (clock s.k - s.start_ts))) ::
         Event.setPassword (pyStrip password) ::
         roundSubmits O365 users (pyStrip password),
       ⟨1, clock (s.k + 1), s.k + 2⟩) := by
  have hd : (if interval > clock s.k - s.start_ts then interval - (clock s.k - s.start_ts)
      else 0) = max 0 (interval - (clock s.k - s.start_ts)) := by
    split
    · next h => exact (max_eq_right (by linarith)).symm
    · next h => exact (max_eq_left (by push_neg at h; linarith)).symm
  rw [roundStep, if_pos ⟨h1, h2⟩]
  simp only [hd]

theorem roundStep_nopause (O365 : Bool) (users : List String) (max_tries : Int)
    (interval : ℚ) (clock : Nat → ℚ) (password : String) (s : LoopState)
    (h : ¬(max_tries > 0 ∧ s.attempt ≥ max_tries)) :
    roundStep O365 users max_tries interval clock password s =
      (Event.setPassword (pyStrip password) :: roundSubmits O365 users (pyStrip password),
       ⟨s.attempt + 1, clock s.k, s.k + 1⟩) := by
  rw [roundStep, if_neg h]

theorem isEmpty_false_of_ne {users : List String} (h : users ≠ []) :
    users.isEmpty = false := by
  cases users with
  | nil => exact absurd rfl h
  | cons a l => rfl

theorem atomizeGo_cons (O365 : Bool) (users : List String) (max_tries : Int)
    (interval : ℚ) (clock : Nat → ℚ) (p : String) (rest : List String) (s : LoopState) :
    atomizeGo O365 users max_tries interval clock (p :: rest) s =
      (if users.isEmpty then
        RunResult.aborted (roundStep O365 users max_tries interval clock p s).1
          awaitEmptyError
      else
        match atomizeGo O365 users max_tries interval clock rest
            (roundStep O365 users max_tries interval clock p s).2 with
        | RunResult.ok tr =>
            RunResult.ok ((roundStep O365 users max_tries interval clock p s).1 ++
              Event.barrier users.length :: tr)
        | RunResult.aborted tr m =>
            RunResult.aborted ((roundStep O365 users max_tries interval clock p s).1 ++
              Event.barrier users.length :: tr) m) := rfl

theorem countP_roundSubmits_sleep (O365 : Bool) (users : List String) (pw : String) :
    (roundSubmits O365 users pw).countP isSleepEv = 0 := by
  induction users with
  | nil => rfl
  | cons a l ih => simp [roundSubmits, List.countP_cons, isSleepEv] at ih ⊢

theorem countP_roundSubmits_setPassword (O365 : Bool) (users : List String) (pw : String) :
    (roundSubmits O365 users pw).countP isSetPasswordEv = 0 := by
  induction users with
  | nil => rfl
  | cons a l ih => simp [roundSubmits, List.countP_cons, isSetPasswordEv] at ih ⊢

theorem countP_roundSubmits_submit (O365 : Bool) (users : List String) (pw : String) :
    (roundSubmits O365 users pw).countP isSubmitEv = users.length := by
  induction users with
  | nil => rfl
  | cons a l ih => simp [roundSubmits, List.countP_cons, isSubmitEv] at ih ⊢

theorem countP_roundStep_sleep_nopause (O365 : Bool) (users : List String)
    (max_tries : Int) (interval : ℚ) (clock : Nat → ℚ) (password : String)
    (s : LoopState) (h : ¬(max_tries > 0 ∧ s.attempt ≥ max_tries)) :
    (roundStep O365 users max_tries interval clock password s).1.countP isSleepEv = 0 := by
  rw [roundStep_nopause O365 users max_tries interval clock password s h]
  simp [List.countP_cons, isSleepEv, countP_roundSubmits_sleep]

theorem countSleeps_atomizeGo_nonpos (O365 : Bool) (users : List String)
    {max_tries : Int} (interval : ℚ) (clock : Nat → ℚ) (hmt : max_tries ≤ 0) :
    ∀ (pws : List String) (s : LoopState),
      (traceOf (atomizeGo O365 users max_tries interval clock pws s)).countP isSleepEv = 0 := by
  intro pws
  induction pws with
  | nil => intro s; rfl
  | cons p rest ih =>
    intro s
    have hn : ¬(max_tries > 0 ∧ s.attempt ≥ max_tries) := by rintro ⟨h1, _⟩; omega
    rw [atomizeGo_cons]
    by_cases hu : users.isEmpty
    · rw [if_pos hu]
      simpa [traceOf] using countP_roundStep_sleep_nopause O365 users max_tries interval
        clock p s hn
    · rw [if_neg hu]
      have hrec := ih (roundStep O365 users max_tries interval clock p s).2
      cases hres : atomizeGo O365 users max_tries interval clock rest
          (roundStep O365 users max_tries interval clock p s).2 with
      | ok tr =>
        rw [hres] at hrec
        simp only [hres, traceOf, List.countP_append, List.countP_cons]
        simp only [traceOf] at hrec
        simp [hrec, isSleepEv,
          countP_roundStep_sleep_nopause O365 users max_tries interval clock p s hn]
      | aborted tr m =>
        rw [hres] at hrec
        simp only [hres, traceOf, List.countP_append, List.countP_cons]
        simp only [traceOf] at hrec
        simp [hrec, isSleepEv,
          countP_roundStep_sleep_nopause O365 users max_tries interval clock p s hn]

theorem atomizeGo_cons_ne (O365 : Bool) (users : List String) (max_tries : Int)
    (interval : ℚ) (clock : Nat → ℚ) (p : String) (rest : List String) (s : LoopState)
    (h : users ≠ []) :
    atomizeGo O365 users max_tries interval clock (p :: rest) s =
      (match atomizeGo O365 users max_tries interval clock rest
          (roundStep O365 users max_tries interval clock p s).2 with
      | RunResult.ok tr =>
          RunResult.ok ((roundStep O365 users max_tries interval clock p s).1 ++
            Event.barrier users.length :: tr)
      | RunResult.aborted tr m =>
          RunResult.aborted ((roundStep O365 users max_tries interval clock p s).1 ++
            Event.barrier users.length :: tr) m) := by
  rw [atomizeGo_cons, if_neg]
  simp [isEmpty_false_of_ne h]

theorem countP_roundStep_setPassword (O365 : Bool) (users : List String)
    (max_tries : Int) (interval : ℚ) (clock : Nat → ℚ) (password : String)
    (s : LoopState) :
    (roundStep O365 users max_tries interval clock password s).1.countP
      isSetPasswordEv = 1 := by
  by_cases hp : max_tries > 0 ∧ s.attempt ≥ max_tries
  · rw [roundStep_pause O365 users max_tries interval clock password s hp.1 hp.2]
    simp [List.countP_cons, isSetPasswordEv, countP_roundSubmits_setPassword]
  · rw [roundStep_nopause O365 users max_tries interval clock password s hp]
    simp [List.countP_cons, isSetPasswordEv, countP_roundSubmits_setPassword]

theorem countP_setPassword_atomizeGo (O365 : Bool) (users : List String)
    (max_tries : Int) (interval : ℚ) (clock : Nat → ℚ) (h : users ≠ []) :
    ∀ (pws : List String) (s : LoopState),
      (traceOf (atomizeGo O365 users max_tries interval clock pws s)).countP
        isSetPasswordEv = pws.length := by
  intro pws
  induction pws with
  | nil => intro s; rfl
  | cons p rest ih =>
    intro s
    rw [atomizeGo_cons_ne O365 users max_tries interval clock p rest s h]
    have hrec := ih (roundStep O365 users max_tries interval clock p s).2
    cases hres : atomizeGo O365 users max_tries interval clock rest
        (roundStep O365 users max_tries interval clock p s).2 with
    | ok tr =>
      rw [hres] at hrec
      simp only [traceOf] at hrec
      simp [traceOf, List.countP_append, List.countP_cons, isSetPasswordEv, hrec,
        countP_roundStep_setPassword O365 users max_tries interval clock p s]
      omega
    | aborted tr m =>
      rw [hres] at hrec
      simp only [traceOf] at hrec
      simp [traceOf, List.countP_append, List.countP_cons, isSetPasswordEv, hrec,
        countP_roundStep_setPassword O365 users max_tries interval clock p s]
      omega

/-! ### Claim theorems -/

/-- C1: at the top of each loop iteration, if max_tries > 0 and attempt has
reached max_tries, the scheduler sleeps exactly max(0, interval - elapsed)
seconds with elapsed measured from start_ts, and resets attempt to 1; in
every other case (max_tries <= 0 or attempt < max_tries) it emits no sleep
and increments attempt by 1. -/
theorem c1_pacing_decision (O365 : Bool) (users : List String) (max_tries : Int)
    (interval : ℚ) (clock : Nat → ℚ) (password : String) (s : LoopState) :
    (max_tries > 0 → s.attempt ≥ max_tries →
      (roundStep O365 users max_tries interval clock password s).1.head? =
          some (Event.sleep (max 0 (interval - (clock s.k - s.start_ts)))) ∧
        (roundStep O365 users max_tries interval clock password s).2.attempt = 1) ∧
    (max_tries ≤ 0 ∨ s.attempt < max_tries →
      (roundStep O365 users max_tries interval clock password s).1.countP isSleepEv = 0 ∧
        (roundStep O365 users max_tries interval clock password s).2.attempt =
          s.attempt + 1) := by
  constructor
  · intro h1 h2
    rw [roundStep_pause O365 users max_tries interval clock password s h1 h2]
    exact ⟨rfl, rfl⟩
  · intro h
    have hn : ¬(max_tries > 0 ∧ s.attempt ≥ max_tries) := by
      rintro ⟨h1, h2⟩; rcases h with h | h <;> omega
    refine ⟨countP_roundStep_sleep_nopause O365 users max_tries interval clock password s hn, ?_⟩
    rw [roundStep_nopause O365 users max_tries interval clock password s hn]

/-- Witness for c1_pacing_decision at concrete inputs: a pausing state
(attempt = 2 = max_tries) and a non-pausing one (attempt = 0 < 2). -/
theorem c1_witness :
    ((2:Int) > 0 ∧ (⟨2, 0, 0⟩ : LoopState).attempt ≥ 2 ∧
      (roundStep false ["a"] 2 5 (fun _ => 0) "p" ⟨2, 0, 0⟩).2.attempt = 1) ∧
    (((2:Int) ≤ 0 ∨ (⟨0, 0, 0⟩ : LoopState).attempt < 2) ∧
      (roundStep false ["a"] 2 5 (fun _ => 0) "p" ⟨0, 0, 0⟩).2.attempt =
        (⟨0, 0, 0⟩ : LoopState).attempt + 1) :=
  ⟨⟨by decide, by decide,
    ((c1_pacing_decision false ["a"] 2 5 (fun _ => 0) "p" ⟨2, 0, 0⟩).1
      (by decide) (by decide)).2⟩,
   ⟨Or.inr (by decide),
    ((c1_pacing_decision false ["a"] 2 5 (fun _ => 0) "p" ⟨0, 0, 0⟩).2
      (Or.inr (by decide))).2⟩⟩

/-- C3: with max_tries <= 0 the scheduler never pauses, for any streams; in
particular for passwords p1, p2, p3 and usernames a, b with max_tries = 0
the run makes exactly 6 attempt calls and no pause occurs. -/
theorem c3_no_pause_nonpos (O365 : Bool) (users passwords : List String)
    (max_tries : Int) (interval : ℚ) (clock : Nat → ℚ) (hmt : max_tries ≤ 0) :
    countSleeps (atomize O365 users passwords max_tries interval clock) = 0 ∧
    countSubmits (atomize false ["a\n", "b\n"] ["p1\n", "p2\n", "p3\n"] 0 0 (fun _ => 0)) = 6 ∧
    countSleeps (atomize false ["a\n", "b\n"] ["p1\n", "p2\n", "p3\n"] 0 0 (fun _ => 0)) = 0 :=
  ⟨countSleeps_atomizeGo_nonpos O365 users interval clock hmt passwords initState,
   by decide, by decide⟩

/-- Witness for c3_no_pause_nonpos at a concrete input with max_tries = 0. -/
theorem c3_witness :
    ((0:Int) ≤ 0) ∧
    (countSleeps (atomize true ["u\n"] ["q\n"] 0 3 (fun _ => 0)) = 0 ∧
      countSubmits (atomize false ["a\n", "b\n"] ["p1\n", "p2\n", "p3\n"] 0 0 (fun _ => 0)) = 6 ∧
      countSleeps (atomize false ["a\n", "b\n"] ["p1\n", "p2\n", "p3\n"] 0 0 (fun _ => 0)) = 0) :=
  ⟨by decide, c3_no_pause_nonpos true ["u\n"] ["q\n"] 0 3 (fun _ => 0) (by decide)⟩

/-- C2: with a non-empty username stream, the trace of a run is the ordered
concatenation of one block per password line, in password-stream order; each
block is a possible pacing sleep, then the setPassword of that round, then
exactly one submit per username line, in username-stream order, each
carrying that round's password, and finally the barrier over all tasks of
the round — so no submit of round N+1 precedes the barrier of round N. -/
theorem c2_round_structure (O365 : Bool) (users : List String) (max_tries : Int)
    (interval : ℚ) (clock : Nat → ℚ) (passwords : List String) (s : LoopState)
    (h : users ≠ []) :
    ∃ blocks : List (List Event),
      atomizeGo O365 users max_tries interval clock passwords s =
        RunResult.ok blocks.flatten ∧
      List.Forall₂ (fun blk pw =>
        ∃ pre : List Event, (∀ e ∈ pre, ∃ d : ℚ, e = Event.sleep d) ∧
          blk = pre ++ Event.setPassword (pyStrip pw) ::
            (roundSubmits O365 users (pyStrip pw) ++ [Event.barrier users.length]))
        blocks passwords := by
  induction passwords generalizing s with
  | nil => exact ⟨[], rfl, List.Forall₂.nil⟩
  | cons p rest ih =>
    obtain ⟨blocks, hok, hf⟩ := ih (roundStep O365 users max_tries interval clock p s).2
    refine ⟨((roundStep O365 users max_tries interval clock p s).1 ++
      [Event.barrier users.length]) :: blocks, ?_, ?_⟩
    · rw [atomizeGo_cons_ne O365 users max_tries interval clock p rest s h, hok]
      simp [List.flatten]
    · refine List.Forall₂.cons ?_ hf
      by_cases hp : max_tries > 0 ∧ s.attempt ≥ max_tries
      · rw [roundStep_pause O365 users max_tries interval clock p s hp.1 hp.2]
        refine ⟨[Event.sleep (max 0 (interval - (clock s.k - s.start_ts)))], ?_, ?_⟩
        · intro e he
          rw [List.mem_singleton] at he
          exact ⟨_, he⟩
        · simp
      · rw [roundStep_nopause O365 users max_tries interval clock p s hp]
        exact ⟨[], by simp, by simp⟩

/-- Witness for c2_round_structure at a concrete input. -/
theorem c2_witness :
    ((["a\n"] : List String) ≠ []) ∧
    (∃ blocks : List (List Event),
      atomizeGo false ["a\n"] 0 0 (fun _ => 0) ["p1\n"] initState =
        RunResult.ok blocks.flatten ∧
      List.Forall₂ (fun blk pw =>
        ∃ pre : List Event, (∀ e ∈ pre, ∃ d : ℚ, e = Event.sleep d) ∧
          blk = pre ++ Event.setPassword (pyStrip pw) ::
            (roundSubmits false ["a\n"] (pyStrip pw) ++
              [Event.barrier (["a\n"] : List String).length]))
        blocks ["p1\n"]) :=
  ⟨by decide,
   c2_round_structure false ["a\n"] 0 0 (fun _ => 0) ["p1\n"] initState (by decide)⟩

/-- C4 counterexample: with usernames a, password lines p1 and p2, and the
interrupt signal delivered after round 1, the run nevertheless starts round
2 and issues its attempt call — 2 submits in total and the full round-2
block is present in the trace, although the claim requires the scheduler to
stop before pulling p2. -/
theorem c4_counterexample :
    countSubmits (atomizeWithSignal false ["a\n"] ["p1\n", "p2\n"] 0 0
      (fun _ => 0) (some 1)) = 2 ∧
    traceOf (atomizeWithSignal false ["a\n"] ["p1\n", "p2\n"] 0 0
        (fun _ => 0) (some 1)) =
      [Event.setPassword "p1", Event.submit "a" false "p1", Event.barrier 1,
       Event.setPassword "p2", Event.submit "a" false "p2", Event.barrier 1] :=
  ⟨by decide, by decide⟩

/-- C4 amended: the signal handler Atomizer.shutdown only invokes the
sprayer shutdown hook; no shutdown flag exists and the scheduler never
checks one between rounds, so the run is identical whenever (if ever) the
signal is delivered, and with a non-empty username stream every password
line still starts its round (one setPassword per password line); in-flight
attempts are likewise not aborted. -/
theorem c4_no_shutdown_check (O365 : Bool) (users passwords : List String)
    (max_tries : Int) (interval : ℚ) (clock : Nat → ℚ) (sig : Option Nat)
    (h : users ≠ []) :
    atomizeWithSignal O365 users passwords max_tries interval clock sig =
      atomize O365 users passwords max_tries interval clock ∧
    (traceOf (atomizeWithSignal O365 users passwords max_tries interval clock
        sig)).countP isSetPasswordEv = passwords.length :=
  ⟨rfl,
   countP_setPassword_atomizeGo O365 users max_tries interval clock h
     passwords initState⟩

/-- Witness for c4_no_shutdown_check at a concrete input. -/
theorem c4_witness :
    ((["a\n"] : List String) ≠ []) ∧
    (atomizeWithSignal true ["a\n"] ["p1\n", "p2\n"] 0 0 (fun _ => 0) (some 0) =
      atomize true ["a\n"] ["p1\n", "p2\n"] 0 0 (fun _ => 0) ∧
    (traceOf (atomizeWithSignal true ["a\n"] ["p1\n", "p2\n"] 0 0 (fun _ => 0)
        (some 0))).countP isSetPasswordEv = (["p1\n", "p2\n"] : List String).length) :=
  ⟨by decide,
   c4_no_shutdown_check true ["a\n"] ["p1\n", "p2\n"] 0 0 (fun _ => 0) (some 0)
     (by decide)⟩

theorem roundStep_attempt_bounds (O365 : Bool) (users : List String) (max_tries : Int)
    (interval : ℚ) (clock : Nat → ℚ) (password : String) (s : LoopState)
    (hmt : max_tries > 0) (h0 : 0 ≤ s.attempt) (h1 : s.attempt ≤ max_tries) :
    0 ≤ (roundStep O365 users max_tries interval clock password s).2.attempt ∧
      (roundStep O365 users max_tries interval clock password s).2.attempt ≤ max_tries := by
  by_cases hp : max_tries > 0 ∧ s.attempt ≥ max_tries
  · rw [roundStep_pause O365 users max_tries interval clock password s hp.1 hp.2]
    show (0:Int) ≤ 1 ∧ (1:Int) ≤ max_tries
    omega
  · rw [roundStep_nopause O365 users max_tries interval clock password s hp]
    show 0 ≤ s.attempt + 1 ∧ s.attempt + 1 ≤ max_tries
    push_neg at hp
    have := hp hmt
    omega

theorem runState_attempt_bounds (O365 : Bool) (users : List String) (max_tries : Int)
    (interval : ℚ) (clock : Nat → ℚ) (hmt : max_tries > 0) :
    ∀ (pws : List String) (s : LoopState), 0 ≤ s.attempt → s.attempt ≤ max_tries →
      0 ≤ (runState O365 users max_tries interval clock pws s).attempt ∧
        (runState O365 users max_tries interval clock pws s).attempt ≤ max_tries := by
  intro pws
  induction pws with
  | nil => intro s h0 h1; exact ⟨h0, h1⟩
  | cons p rest ih =>
    intro s h0 h1
    have hb := roundStep_attempt_bounds O365 users max_tries interval clock p s hmt h0 h1
    exact ih _ hb.1 hb.2

theorem runState_attempt_nonpos (O365 : Bool) (users : List String) (max_tries : Int)
    (interval : ℚ) (clock : Nat → ℚ) (hmt : max_tries ≤ 0) :
    ∀ (pws : List String) (s : LoopState),
      (runState O365 users max_tries interval clock pws s).attempt =
        s.attempt + pws.length := by
  intro pws
  induction pws with
  | nil => intro s; simp [runState]
  | cons p rest ih =>
    intro s
    have hn : ¬(max_tries > 0 ∧ s.attempt ≥ max_tries) := by rintro ⟨a, _⟩; omega
    have hstep : (roundStep O365 users max_tries interval clock p s).2.attempt =
        s.attempt + 1 := by
      rw [roundStep_nopause O365 users max_tries interval clock p s hn]
    have h2 := ih (roundStep O365 users max_tries interval clock p s).2
    show (runState O365 users max_tries interval clock rest
      (roundStep O365 users max_tries interval clock p s).2).attempt =
      s.attempt + (p :: rest).length
    rw [h2, hstep]
    simp [List.length_cons]
    omega

/-- C5: after any round, the pacing anchor start_ts equals the clock sample
taken in that round just after the pacing decision (index k + 1 if the round
paused, k otherwise) and before the fan-out; consequently, if the next round
triggers a pause, the elapsed time it uses is measured from that sample —
the start of the round that completed the threshold — and its pause is
max(0, interval - elapsed) from there. -/
theorem c5_window_anchor (O365 : Bool) (users : List String) (max_tries : Int)
    (interval : ℚ) (clock : Nat → ℚ) (p q : String) (s : LoopState) :
    (roundStep O365 users max_tries interval clock p s).2.start_ts =
      clock (if max_tries > 0 ∧ s.attempt ≥ max_tries then s.k + 1 else s.k) ∧
    (max_tries > 0 →
      (roundStep O365 users max_tries interval clock p s).2.attempt ≥ max_tries →
      (roundStep O365 users max_tries interval clock q
          (roundStep O365 users max_tries interval clock p s).2).1.head? =
        some (Event.sleep (max 0 (interval -
          (clock (roundStep O365 users max_tries interval clock p s).2.k -
           (roundStep O365 users max_tries interval clock p s).2.start_ts))))) := by
  constructor
  · by_cases hp : max_tries > 0 ∧ s.attempt ≥ max_tries
    · rw [roundStep_pause O365 users max_tries interval clock p s hp.1 hp.2, if_pos hp]
    · rw [roundStep_nopause O365 users max_tries interval clock p s hp, if_neg hp]
  · intro h1 h2
    rw [roundStep_pause O365 users max_tries interval clock q
      (roundStep O365 users max_tries interval clock p s).2 h1 h2]
    rfl

/-- Witness for c5_window_anchor at a concrete input where the second round
triggers the pause (max_tries = 1). -/
theorem c5_witness :
    ((roundStep false ["a"] 1 10 (fun _ => 0) "p" initState).2.start_ts = (0:ℚ)) ∧
    ((1:Int) > 0) ∧
    ((roundStep false ["a"] 1 10 (fun _ => 0) "p" initState).2.attempt ≥ 1) ∧
    ((roundStep false ["a"] 1 10 (fun _ => 0) "q"
        (roundStep false ["a"] 1 10 (fun _ => 0) "p" initState).2).1.head? =
      some (Event.sleep (max 0 (10 -
        ((0:ℚ) - (roundStep false ["a"] 1 10 (fun _ => 0) "p" initState).2.start_ts))))) :=
  ⟨(c5_window_anchor false ["a"] 1 10 (fun _ => 0) "p" "q" initState).1,
   by decide, by decide,
   (c5_window_anchor false ["a"] 1 10 (fun _ => 0) "p" "q" initState).2
     (by decide) (by decide)⟩

/-- C6: the round counter starts at 0; when max_tries > 0, from any state
with attempt in [0, max_tries] the counter stays in [0, max_tries] after any
number of further rounds; when max_tries <= 0 it grows by exactly one per
round, hence without bound. -/
theorem c6_attempt_invariant (O365 : Bool) (users : List String) (max_tries : Int)
    (interval : ℚ) (clock : Nat → ℚ) (passwords : List String) (s : LoopState) :
    initState.attempt = 0 ∧
    (max_tries > 0 → 0 ≤ s.attempt → s.attempt ≤ max_tries →
      0 ≤ (runState O365 users max_tries interval clock passwords s).attempt ∧
        (runState O365 users max_tries interval clock passwords s).attempt ≤ max_tries) ∧
    (max_tries ≤ 0 →
      (runState O365 users max_tries interval clock passwords s).attempt =
        s.attempt + passwords.length) :=
  ⟨rfl,
   fun hmt h0 h1 =>
     runState_attempt_bounds O365 users max_tries interval clock hmt passwords s h0 h1,
   fun hmt => runState_attempt_nonpos O365 users max_tries interval clock hmt passwords s⟩

/-- Witness for c6_attempt_invariant at concrete inputs: bounds with
max_tries = 1 over two rounds, and linear growth with max_tries = 0. -/
theorem c6_witness :
    ((1:Int) > 0) ∧ (0 ≤ initState.attempt) ∧ (initState.attempt ≤ 1) ∧
    (0 ≤ (runState false ["a"] 1 0 (fun _ => 0) ["p", "q"] initState).attempt ∧
      (runState false ["a"] 1 0 (fun _ => 0) ["p", "q"] initState).attempt ≤ 1) ∧
    ((0:Int) ≤ 0) ∧
    ((runState false ["a"] 0 0 (fun _ => 0) ["p", "q"] initState).attempt =
      initState.attempt + (["p", "q"] : List String).length) :=
  ⟨by decide, by decide, by decide,
   (c6_attempt_invariant false ["a"] 1 0 (fun _ => 0) ["p", "q"] initState).2.1
     (by decide) (by decide) (by decide),
   by decide,
   (c6_attempt_invariant false ["a"] 0 0 (fun _ => 0) ["p", "q"] initState).2.2
     (by decide)⟩

/-- C7: if either input path does not exist or is not a regular file, the
entry point prints an error and exits with status 1 (non-zero) before the
scheduler starts, and zero attempt calls are made. -/
theorem c7_invalid_input_path (fs : FileSystem) (passfile userfile : String)
    (O365 : Bool) (max_tries : Int) (interval : ℚ) (clock : Nat → ℚ)
    (h : (!fs.pathExists passfile || !fs.pathIsFile passfile) = true ∨
         (!fs.pathExists userfile || !fs.pathIsFile userfile) = true) :
    ∃ msg : String,
      mainSpray fs passfile userfile O365 max_tries interval clock =
        Except.error (msg, 1) ∧
      (1:Nat) ≠ 0 ∧
      attemptsOf (mainSpray fs passfile userfile O365 max_tries interval clock) = 0 := by
  by_cases h1 : (!fs.pathExists passfile || !fs.pathIsFile passfile) = true
  · have he : mainSpray fs passfile userfile O365 max_tries interval clock =
        Except.error ("Path to --passfile invalid!", 1) := by
      simp only [mainSpray]
      rw [if_pos h1]
    exact ⟨_, he, by omega, by rw [he]; rfl⟩
  · have h2 : (!fs.pathExists userfile || !fs.pathIsFile userfile) = true := by
      rcases h with h | h
      · exact absurd h h1
      · exact h
    have he : mainSpray fs passfile userfile O365 max_tries interval clock =
        Except.error ("Path to --userfile invalid!", 1) := by
      simp only [mainSpray]
      rw [if_neg h1, if_pos h2]
    exact ⟨_, he, by omega, by rw [he]; rfl⟩

/-- Witness for c7_invalid_input_path: a file system on which no path
exists. -/
theorem c7_witness :
    (((!(⟨fun _ => false, fun _ => false, fun _ => []⟩ : FileSystem).pathExists "pws.txt" ||
        !(⟨fun _ => false, fun _ => false, fun _ => []⟩ : FileSystem).pathIsFile "pws.txt") = true) ∨
      ((!(⟨fun _ => false, fun _ => false, fun _ => []⟩ : FileSystem).pathExists "users.txt" ||
        !(⟨fun _ => false, fun _ => false, fun _ => []⟩ : FileSystem).pathIsFile "users.txt") = true)) ∧
    (∃ msg : String,
      mainSpray ⟨fun _ => false, fun _ => false, fun _ => []⟩ "pws.txt" "users.txt"
        false 0 0 (fun _ => 0) = Except.error (msg, 1) ∧
      (1:Nat) ≠ 0 ∧
      attemptsOf (mainSpray ⟨fun _ => false, fun _ => false, fun _ => []⟩ "pws.txt"
        "users.txt" false 0 0 (fun _ => 0)) = 0) :=
  ⟨Or.inl (by decide),
   c7_invalid_input_path ⟨fun _ => false, fun _ => false, fun _ => []⟩ "pws.txt"
     "users.txt" false 0 0 (fun _ => 0) (Or.inl (by decide))⟩

theorem pyStrip_decomp (s : String) :
    ∃ pre suf : List Char,
      s.toList = pre ++ (pyStrip s).toList ++ suf ∧
      (∀ c ∈ pre, isPySpace c = true) ∧ (∀ c ∈ suf, isPySpace c = true) := by
  refine ⟨s.toList.takeWhile isPySpace,
    ((s.toList.dropWhile isPySpace).reverse.takeWhile isPySpace).reverse, ?_, ?_, ?_⟩
  · conv_lhs => rw [← List.takeWhile_append_dropWhile (p := isPySpace) (l := s.toList)]
    rw [List.append_assoc]
    congr 1
    show s.toList.dropWhile isPySpace =
      ((s.toList.dropWhile isPySpace).reverse.dropWhile isPySpace).reverse ++
      ((s.toList.dropWhile isPySpace).reverse.takeWhile isPySpace).reverse
    calc s.toList.dropWhile isPySpace
        = ((s.toList.dropWhile isPySpace).reverse).reverse :=
          (List.reverse_reverse _).symm
      _ = (((s.toList.dropWhile isPySpace).reverse.takeWhile isPySpace) ++
            ((s.toList.dropWhile isPySpace).reverse.dropWhile isPySpace)).reverse := by
          rw [List.takeWhile_append_dropWhile]
      _ = ((s.toList.dropWhile isPySpace).reverse.dropWhile isPySpace).reverse ++
            ((s.toList.dropWhile isPySpace).reverse.takeWhile isPySpace).reverse := by
          rw [List.reverse_append]
  · intro c hc
    exact List.mem_takeWhile_imp hc
  · intro c hc
    rw [List.mem_reverse] at hc
    exact List.mem_takeWhile_imp hc

theorem countP_roundStep_submit (O365 : Bool) (users : List String) (max_tries : Int)
    (interval : ℚ) (clock : Nat → ℚ) (password : String) (s : LoopState) :
    (roundStep O365 users max_tries interval clock password s).1.countP isSubmitEv =
      users.length := by
  by_cases hp : max_tries > 0 ∧ s.attempt ≥ max_tries
  · rw [roundStep_pause O365 users max_tries interval clock password s hp.1 hp.2]
    simp [List.countP_cons, isSubmitEv, countP_roundSubmits_submit]
  · rw [roundStep_nopause O365 users max_tries interval clock password s hp]
    simp [List.countP_cons, isSubmitEv, countP_roundSubmits_submit]

/-- C8 counterexample: for the password line " p\n" (leading space) the
credential set on the sprayer is "p", and for the username line " a\n" the
attempt receives "a" — but trimming only trailing whitespace from those
lines yields " p" and " a", which differ. The code strips both ends. -/
theorem c8_counterexample :
    traceOf (atomize false [" a\n"] [" p\n"] 0 0 (fun _ => 0)) =
      [Event.setPassword "p", Event.submit "a" false "p", Event.barrier 1] ∧
    ("p" : String) ≠ " p" ∧ ("a" : String) ≠ " a" :=
  ⟨by decide, by decide, by decide⟩

/-- C8 amended: every credential used is the input line with leading AND
trailing whitespace trimmed (a decomposition into whitespace prefix, kept
core, whitespace suffix exists for every line); empty or blank lines are not
skipped — each of the users lines yields exactly one submit — and a bare
newline line yields the empty-string credential. -/
theorem c8_strip_both_ends (O365 : Bool) (users : List String) (max_tries : Int)
    (interval : ℚ) (clock : Nat → ℚ) (password : String) (s : LoopState)
    (inputLine : String) :
    (roundStep O365 users max_tries interval clock password s).1.countP isSubmitEv =
      users.length ∧
    Event.setPassword (pyStrip password) ∈
      (roundStep O365 users max_tries interval clock password s).1 ∧
    (∀ u ∈ users, Event.submit (pyStrip u) O365 (pyStrip password) ∈
      (roundStep O365 users max_tries interval clock password s).1) ∧
    (∃ pre suf : List Char,
      inputLine.toList = pre ++ (pyStrip inputLine).toList ++ suf ∧
      (∀ c ∈ pre, isPySpace c = true) ∧ (∀ c ∈ suf, isPySpace c = true)) ∧
    pyStrip "\n" = "" ∧ pyStrip "" = "" := by
  refine ⟨countP_roundStep_submit O365 users max_tries interval clock password s,
    ?_, ?_, pyStrip_decomp inputLine, by decide, by decide⟩
  · by_cases hp : max_tries > 0 ∧ s.attempt ≥ max_tries
    · rw [roundStep_pause O365 users max_tries interval clock password s hp.1 hp.2]
      simp
    · rw [roundStep_nopause O365 users max_tries interval clock password s hp]
      simp
  · intro u hu
    by_cases hp : max_tries > 0 ∧ s.attempt ≥ max_tries
    · rw [roundStep_pause O365 users max_tries interval clock password s hp.1 hp.2]
      simp only [List.mem_cons, roundSubmits, List.mem_map]
      exact Or.inr (Or.inr ⟨u, hu, rfl⟩)
    · rw [roundStep_nopause O365 users max_tries interval clock password s hp]
      simp only [List.mem_cons, roundSubmits, List.mem_map]
      exact Or.inr ⟨u, hu, rfl⟩

/-- Witness for c8_strip_both_ends at a concrete input. -/
theorem c8_witness :
    (roundStep true [" a\n", "\n"] 0 0 (fun _ => 0) " p\n" initState).1.countP
      isSubmitEv = (([" a\n", "\n"] : List String)).length ∧
    Event.setPassword (pyStrip " p\n") ∈
      (roundStep true [" a\n", "\n"] 0 0 (fun _ => 0) " p\n" initState).1 ∧
    (∀ u ∈ ([" a\n", "\n"] : List String),
      Event.submit (pyStrip u) true (pyStrip " p\n") ∈
        (roundStep true [" a\n", "\n"] 0 0 (fun _ => 0) " p\n" initState).1) ∧
    (∃ pre suf : List Char,
      (" x \n" : String).toList = pre ++ (pyStrip " x \n").toList ++ suf ∧
      (∀ c ∈ pre, isPySpace c = true) ∧ (∀ c ∈ suf, isPySpace c = true)) ∧
    pyStrip "\n" = "" ∧ pyStrip "" = "" :=
  c8_strip_both_ends true [" a\n", "\n"] 0 0 (fun _ => 0) " p\n" initState " x \n"

theorem all_usesFlagVariant_roundSubmits (O365 : Bool) (users : List String)
    (pw : String) :
    (roundSubmits O365 users pw).all (usesFlagVariant O365) = true := by
  induction users with
  | nil => rfl
  | cons a l ih => simp [roundSubmits, usesFlagVariant] at ih ⊢

theorem all_usesFlagVariant_roundStep (O365 : Bool) (users : List String)
    (max_tries : Int) (interval : ℚ) (clock : Nat → ℚ) (password : String)
    (s : LoopState) :
    (roundStep O365 users max_tries interval clock password s).1.all
      (usesFlagVariant O365) = true := by
  by_cases hp : max_tries > 0 ∧ s.attempt ≥ max_tries
  · rw [roundStep_pause O365 users max_tries interval clock password s hp.1 hp.2]
    simp [List.all_cons, usesFlagVariant, all_usesFlagVariant_roundSubmits]
  · rw [roundStep_nopause O365 users max_tries interval clock password s hp]
    simp [List.all_cons, usesFlagVariant, all_usesFlagVariant_roundSubmits]

/-- C9: every submit event of a run selects the federated attempt operation
auth_O365 exactly when the sprayer O365 flag is set and the standard auth
otherwise — the same single variant for every username of every round. -/
theorem c9_variant_by_flag (O365 : Bool) (users : List String) (max_tries : Int)
    (interval : ℚ) (clock : Nat → ℚ) (passwords : List String) (s : LoopState) :
    (traceOf (atomizeGo O365 users max_tries interval clock passwords s)).all
      (usesFlagVariant O365) = true := by
  induction passwords generalizing s with
  | nil => rfl
  | cons p rest ih =>
    rw [atomizeGo_cons]
    by_cases hu : users.isEmpty
    · rw [if_pos hu]
      simpa [traceOf] using
        all_usesFlagVariant_roundStep O365 users max_tries interval clock p s
    · rw [if_neg hu]
      have hrec := ih (roundStep O365 users max_tries interval clock p s).2
      cases hres : atomizeGo O365 users max_tries interval clock rest
          (roundStep O365 users max_tries interval clock p s).2 with
      | ok tr =>
        rw [hres] at hrec
        simp only [traceOf] at hrec ⊢
        simp [List.all_append, List.all_cons, usesFlagVariant, hrec,
          all_usesFlagVariant_roundStep O365 users max_tries interval clock p s]
      | aborted tr m =>
        rw [hres] at hrec
        simp only [traceOf] at hrec ⊢
        simp [List.all_append, List.all_cons, usesFlagVariant, hrec,
          all_usesFlagVariant_roundStep O365 users max_tries interval clock p s]

/-- C10: with an empty username stream and a non-empty password stream, the
run does not complete a round with zero attempts: the barrier over the empty
task list raises ValueError and the run aborts, with zero attempt calls
made. -/
theorem c10_empty_userfile (O365 : Bool) (users passwords : List String)
    (max_tries : Int) (interval : ℚ) (clock : Nat → ℚ)
    (hu : users = []) (hp : passwords ≠ []) :
    ∃ tr : List Event,
      atomize O365 users passwords max_tries interval clock =
        RunResult.aborted tr awaitEmptyError ∧
      countSubmits (atomize O365 users passwords max_tries interval clock) = 0 := by
  subst hu
  cases passwords with
  | nil => exact absurd rfl hp
  | cons p rest =>
    have hn : ¬(max_tries > 0 ∧ initState.attempt ≥ max_tries) := by
      rintro ⟨h1, h2⟩
      simp [initState] at h2
      omega
    have ha : atomize O365 [] (p :: rest) max_tries interval clock =
        RunResult.aborted [Event.setPassword (pyStrip p)] awaitEmptyError := by
      show atomizeGo O365 [] max_tries interval clock (p :: rest) initState = _
      rw [atomizeGo_cons, if_pos]
      · rw [roundStep_nopause O365 [] max_tries interval clock p initState hn]
        rfl
      · rfl
    exact ⟨_, ha, by rw [countSubmits, ha]; rfl⟩

/-- Witness for c10_empty_userfile at a concrete input. -/
theorem c10_witness :
    (([] : List String) = []) ∧ ((["p\n"] : List String) ≠ []) ∧
    (∃ tr : List Event,
      atomize true [] ["p\n"] 1 2 (fun _ => 0) = RunResult.aborted tr awaitEmptyError ∧
      countSubmits (atomize true [] ["p\n"] 1 2 (fun _ => 0)) = 0) :=
  ⟨rfl, by decide, c10_empty_userfile true [] ["p\n"] 1 2 (fun _ => 0) rfl (by decide)⟩

end Atomizer
